import Mathlib

/-!
Verification development for a judicial-judgment crawler (two Python source
variants: a full crawler and a production extractor).  The relevant Python
functions are shallowly embedded as executable Lean definitions over
`List Char` / `String`.  HTTP transport and the BeautifulSoup HTML parser are
external collaborators: transport is modelled as an oracle
`String → Except String Resp` (an `error` result models a raised transport
exception) and parse artifacts of a response body (anchor lists, script
texts, tables, block elements, flattened page text) are carried as fields of
the response structure, exactly as the code consumes them.
-/

/-! ## Python string primitives -/

/-- Occurrence of `needle` as a contiguous sublist of `hay`; this embeds the
Python substring operator `needle in hay`. -/
def sublistContains (needle hay : List Char) : Bool :=
  match hay with
  | [] => needle.isEmpty
  | _ :: t => needle.isPrefixOf hay || sublistContains needle t

/-- Python `needle in hay` on strings. -/
def pyIn (needle hay : String) : Bool :=
  sublistContains needle.data hay.data

/-- Python `s.startswith pre`. -/
def pyStartsWith (s pre : String) : Bool :=
  pre.data.isPrefixOf s.data

/-- Whitespace class used by Python `str.strip`, `int` and the `re` class `\s`
(restricted to the ASCII whitespace repertoire occurring in this system). -/
def isPySpace (c : Char) : Bool :=
  c = ' ' || c = '\t' || c = '\n' || c = '\r' || c = '\x0b' || c = '\x0c'

/-- Python `s.strip()` on char lists. -/
def pyStripList (cs : List Char) : List Char :=
  (cs.dropWhile isPySpace).reverse.dropWhile isPySpace |>.reverse

/-- Python `s.strip()`. -/
def pyStrip (s : String) : String :=
  String.mk (pyStripList s.data)

/-- One step of Python `str.replace`: replace all non-overlapping occurrences
of `pat` (assumed non-empty) left to right; `fuel` bounds the scan. -/
def replaceAllAux (pat repl : List Char) : Nat → List Char → List Char
  | 0, cs => cs
  | _ + 1, [] => []
  | fuel + 1, c :: rest =>
    if pat.isPrefixOf (c :: rest) then
      repl ++ replaceAllAux pat repl fuel ((c :: rest).drop pat.length)
    else
      c :: replaceAllAux pat repl fuel rest

/-- Python `s.replace(pat, repl)` (for non-empty `pat`). -/
def pyReplace (s pat repl : String) : String :=
  String.mk (replaceAllAux pat.data repl.data (s.data.length + 1) s.data)

/-- Python `s.split(sep)` for a single-character separator. -/
def splitOnChar (sep : Char) : List Char → List (List Char)
  | [] => [[]]
  | c :: rest =>
    let r := splitOnChar sep rest
    if c = sep then [] :: r
    else
      match r with
      | h :: t => (c :: h) :: t
      | [] => [[c]]

/-- Split at the first occurrence of `sep`, returning the parts before and
after it; `none` when `sep` does not occur.  Embeds `s.split(sep, 1)`. -/
def splitFirstChar (sep : Char) : List Char → Option (List Char × List Char)
  | [] => none
  | c :: rest =>
    if c = sep then some ([], rest)
    else (splitFirstChar sep rest).map (fun p => (c :: p.1, p.2))

/-- Digit-run parser for Python `int`, allowing single underscores strictly
between digits. -/
def pyDigitsParse : List Char → Option Nat
  | [] => none
  | c :: rest =>
    if c.isDigit then pyDigitsGo (c.toNat - '0'.toNat) rest else none
where
  pyDigitsGo (acc : Nat) : List Char → Option Nat
    | [] => some acc
    | '_' :: d :: rest =>
      if d.isDigit then pyDigitsGo (acc * 10 + (d.toNat - '0'.toNat)) rest else none
    | '_' :: [] => none
    | d :: rest =>
      if d.isDigit then pyDigitsGo (acc * 10 + (d.toNat - '0'.toNat)) rest else none

/-- Python `int(s)`: optional surrounding whitespace, optional sign, a
non-empty digit run (single underscores between digits allowed); any other
shape raises `ValueError`, modelled as `none`. -/
def pyIntParse (cs : List Char) : Option Int :=
  match pyStripList cs with
  | '+' :: rest => (pyDigitsParse rest).map Int.ofNat
  | '-' :: rest => (pyDigitsParse rest).map (fun n => -(n : Int))
  | rest => (pyDigitsParse rest).map Int.ofNat

/-- Python format spec `{:0wd}` for integers: sign, then zero padding up to
total width `w`, then the decimal magnitude. -/
def padIntFmt (w : Nat) (n : Int) : String :=
  let mag := toString n.natAbs
  let sgn := if n < 0 then "-" else ""
  sgn ++ String.mk (List.replicate (w - (mag.length + sgn.length)) '0') ++ mag

/-! ## Percent encoding (urllib quote / unquote) -/

/-- UTF-8 encoding of one scalar value, as a byte list. -/
def utf8Encode (c : Char) : List Nat :=
  let n := c.toNat
  if n < 0x80 then [n]
  else if n < 0x800 then [0xC0 + n / 0x40, 0x80 + n % 0x40]
  else if n < 0x10000 then
    [0xE0 + n / 0x1000, 0x80 + (n / 0x40) % 0x40, 0x80 + n % 0x40]
  else
    [0xF0 + n / 0x40000, 0x80 + (n / 0x1000) % 0x40,
     0x80 + (n / 0x40) % 0x40, 0x80 + n % 0x40]

/-- UTF-8 decoding of a byte list; invalid sequences decode to U+FFFD
(Python `errors=replace`). -/
def utf8Decode : Nat → List Nat → List Char
  | 0, _ => []
  | _ + 1, [] => []
  | fuel + 1, b :: rest =>
    if b < 0x80 then Char.ofNat b :: utf8Decode fuel rest
    else if 0xC0 ≤ b && b < 0xE0 then
      match rest with
      | b1 :: rest1 =>
        if 0x80 ≤ b1 && b1 < 0xC0 then
          Char.ofNat ((b - 0xC0) * 0x40 + (b1 - 0x80)) :: utf8Decode fuel rest1
        else Char.ofNat 0xFFFD :: utf8Decode fuel rest
      | [] => [Char.ofNat 0xFFFD]
    else if 0xE0 ≤ b && b < 0xF0 then
      match rest with
      | b1 :: b2 :: rest2 =>
        if (0x80 ≤ b1 && b1 < 0xC0) && (0x80 ≤ b2 && b2 < 0xC0) then
          Char.ofNat ((b - 0xE0) * 0x1000 + (b1 - 0x80) * 0x40 + (b2 - 0x80)) ::
            utf8Decode fuel rest2
        else Char.ofNat 0xFFFD :: utf8Decode fuel rest
      | _ => [Char.ofNat 0xFFFD]
    else if 0xF0 ≤ b && b < 0xF8 then
      match rest with
      | b1 :: b2 :: b3 :: rest3 =>
        if (0x80 ≤ b1 && b1 < 0xC0) && (0x80 ≤ b2 && b2 < 0xC0) &&
            (0x80 ≤ b3 && b3 < 0xC0) then
          Char.ofNat ((b - 0xF0) * 0x40000 + (b1 - 0x80) * 0x1000 +
            (b2 - 0x80) * 0x40 + (b3 - 0x80)) :: utf8Decode fuel rest3
        else Char.ofNat 0xFFFD :: utf8Decode fuel rest
      | _ => [Char.ofNat 0xFFFD]
    else Char.ofNat 0xFFFD :: utf8Decode fuel rest

/-- Uppercase hexadecimal digit for a value below 16. -/
def hexDigitUpper (n : Nat) : Char :=
  if n < 10 then Char.ofNat ('0'.toNat + n) else Char.ofNat ('A'.toNat + n - 10)

/-- Bytes that `urllib.parse.quote` leaves unescaped with the default
`safe = /`: unreserved ASCII plus the slash. -/
def quoteSafeByte (b : Nat) : Bool :=
  let c := Char.ofNat b
  b < 0x80 &&
    (c.isAlphanum || c = '_' || c = '.' || c = '-' || c = '~' || c = '/')

/-- Python `urllib.parse.quote(s)` (default `safe = /`). -/
def pyQuote (s : String) : String :=
  String.mk ((s.data.flatMap utf8Encode).flatMap fun b =>
    if quoteSafeByte b then [Char.ofNat b]
    else ['%', hexDigitUpper (b / 16), hexDigitUpper (b % 16)])

/-- Hexadecimal digit value (either case), `none` for non-hex characters. -/
def hexVal (c : Char) : Option Nat :=
  let n := c.toNat
  if 48 ≤ n && n ≤ 57 then some (n - 48)
  else if 97 ≤ n && n ≤ 102 then some (n - 87)
  else if 65 ≤ n && n ≤ 70 then some (n - 55)
  else none

/-- Byte sequence of a percent-encoded string: `%hh` pairs decode to the
named byte, everything else contributes its UTF-8 bytes (a stray percent sign
stays literal, as in Python `unquote`). -/
def pctBytes : List Char → List Nat
  | [] => []
  | '%' :: h1 :: h2 :: rest =>
    match hexVal h1, hexVal h2 with
    | some a, some b => (16 * a + b) :: pctBytes rest
    | _, _ => utf8Encode '%' ++ pctBytes (h1 :: h2 :: rest)
  | c :: rest => utf8Encode c ++ pctBytes rest

/-- Python `urllib.parse.unquote_plus`: plus signs become spaces, then
percent escapes are decoded as UTF-8. -/
def pyUnquotePlus (s : String) : String :=
  let swapped := s.data.map fun c => if c = '+' then ' ' else c
  let bytes := pctBytes swapped
  String.mk (utf8Decode (bytes.length + 1) bytes)

/-- Query-string part of a URL per `urllib.parse.urlparse`: the text after
the first question mark of the pre-fragment portion. -/
def pyUrlQuery (url : String) : String :=
  let beforeFrag := url.data.takeWhile (fun c => c ≠ '#')
  match splitFirstChar '?' beforeFrag with
  | some (_, q) => String.mk q
  | none => ""

/-- First decoded value bound to `key` by `urllib.parse.parse_qs` applied to
query string `qs` (default options: blank values dropped, fields without an
equals sign skipped).  `parse_qs(qs)[key][0]` is this value, and `key in
parse_qs(qs)` holds exactly when it is `some`. -/
def pyParseQsFirst (key qs : String) : Option String :=
  (splitOnChar '&' qs.data).findSome? fun field =>
    match splitFirstChar '=' field with
    | none => none
    | some (n, v) =>
      if v.isEmpty then none
      else if pyUnquotePlus (String.mk n) = key then
        some (pyUnquotePlus (String.mk v))
      else none

/-! ## A backtracking matcher for the regular expressions of the crawler

Every pattern used by the source confines repetition to character classes, so
a small backtracking engine with Python preference order (alternation tries
the left branch first, greedy repetition longest-first, lazy repetition
shortest-first, `search` at the leftmost feasible start) embeds them exactly.
Character classes restrict the Python Unicode classes to the repertoire this
system processes: ASCII plus the CJK unified ideographs. -/

/-- Word class `\w` over the ASCII and CJK repertoire. -/
def isWordChar (c : Char) : Bool :=
  c.isAlphanum || c = '_' || (0x4E00 ≤ c.toNat && c.toNat ≤ 0x9FFF)

/-- Class `[\w\s]`. -/
def isWordSpace (c : Char) : Bool :=
  isWordChar c || isPySpace c

/-- Class `.` (anything but a newline). -/
def isNotNl (c : Char) : Bool :=
  c ≠ '\n'

/-- Lowercase hexadecimal class `[a-f0-9]`. -/
def isLowerHex (c : Char) : Bool :=
  c.isDigit || ('a' ≤ c && c ≤ 'f')

/-- Pattern syntax: literals, single-character classes, sequencing,
alternation, greedy option, character-class repetition with bounds and a
laziness flag, capture groups and the end anchor. -/
inductive Pat where
  | lit : List Char → Pat
  | one : (Char → Bool) → Pat
  | seq : Pat → Pat → Pat
  | alt : Pat → Pat → Pat
  | opt : Pat → Pat
  | rep : (Char → Bool) → Nat → Option Nat → Bool → Pat
  | grp : Nat → Pat → Pat
  | eos : Pat

/-- Length of the maximal prefix of `s` inside class `f`. -/
def maxRun (f : Char → Bool) : List Char → Nat
  | [] => 0
  | c :: rest => if f c then maxRun f rest + 1 else 0

/-- Candidate consumption counts for a repetition, in backtracking
preference order: lazy counts ascend from the minimum, greedy counts descend
from the feasible maximum. -/
def repCounts (f : Char → Bool) (mn : Nat) (mx : Option Nat) (lazy : Bool)
    (s : List Char) : List Nat :=
  let run := maxRun f s
  let top := match mx with | some m => min m run | none => run
  if mn > top then []
  else
    let range := (List.range (top - mn + 1)).map (· + mn)
    if lazy then range else range.reverse

/-- Captures: group index paired with captured characters; a later binding
for the same index shadows earlier ones. -/
abbrev Caps := List (Nat × List Char)

/-- Backtracking matcher in continuation-passing style.  The continuation
receives the rest of the input and the captures; the first continuation
success in preference order is the overall result. -/
def matchPat : Pat → List Char → Caps →
    (List Char → Caps → Option (Caps × List Char)) → Option (Caps × List Char)
  | .lit l, s, caps, k => if l.isPrefixOf s then k (s.drop l.length) caps else none
  | .one f, s, caps, k =>
    match s with
    | c :: rest => if f c then k rest caps else none
    | [] => none
  | .seq p q, s, caps, k =>
    matchPat p s caps (fun s1 caps1 => matchPat q s1 caps1 k)
  | .alt p q, s, caps, k =>
    (matchPat p s caps k).orElse (fun _ => matchPat q s caps k)
  | .opt p, s, caps, k =>
    (matchPat p s caps k).orElse (fun _ => k s caps)
  | .rep f mn mx lazy, s, caps, k =>
    (repCounts f mn mx lazy s).findSome? (fun n => k (s.drop n) caps)
  | .grp n p, s, caps, k =>
    matchPat p s caps
      (fun s1 caps1 => k s1 ((n, s.take (s.length - s1.length)) :: caps1))
  | .eos, s, caps, k => if s.isEmpty then k s caps else none

/-- Match `p` at the start of `s`; on success returns the captures and the
input remaining after the match. -/
def matchHere (p : Pat) (s : List Char) : Option (Caps × List Char) :=
  matchPat p s [] (fun rest caps => some (caps, rest))

/-- Python `re.search`: leftmost feasible start.  Returns the match start
offset, captures, and the input remaining after the match. -/
def reSearchAux (p : Pat) : List Char → Nat → Option (Nat × Caps × List Char)
  | s, off =>
    match matchHere p s with
    | some (caps, rest) => some (off, caps, rest)
    | none =>
      match s with
      | [] => none
      | _ :: t => reSearchAux p t (off + 1)

/-- Captures of the leftmost match of `p` in `s` (`re.search` success test
and group access). -/
def reSearch (p : Pat) (s : List Char) : Option Caps :=
  (reSearchAux p s 0).map (fun r => r.2.1)

/-- Captured text of group `n` (empty when the group is absent). -/
def capStr (caps : Caps) (n : Nat) : String :=
  String.mk ((caps.lookup n).getD [])

/-- Python `re.finditer`: non-overlapping leftmost matches, each reported as
absolute start offset, absolute end offset and captures. -/
def finditerAux (p : Pat) : Nat → List Char → Nat → List (Nat × Nat × Caps)
  | 0, _, _ => []
  | fuel + 1, s, base =>
    match reSearchAux p s 0 with
    | none => []
    | some (st, caps, rest) =>
      let en := s.length - rest.length
      (base + st, base + en, caps) ::
        (if rest.length < s.length then finditerAux p fuel rest (base + en) else [])

/-- All matches of `p` in `s` with positions. -/
def finditer (p : Pat) (s : List Char) : List (Nat × Nat × Caps) :=
  finditerAux p (s.length + 1) s 0

/-- Python `re.sub(p, repl, s)` for a constant replacement: replace each
non-overlapping leftmost match. -/
def reSubAllAux (p : Pat) (repl : List Char) : Nat → List Char → List Char
  | 0, s => s
  | fuel + 1, s =>
    match reSearchAux p s 0 with
    | none => s
    | some (st, _, rest) =>
      if rest.length < s.length then
        s.take st ++ repl ++ reSubAllAux p repl fuel rest
      else s

/-! ## The concrete patterns of the source -/

/-- Judgment-identifier pattern shared by the full variant
(`parse_judgment_id`, block and raw-text strategies):
`([\w\s]+)\s+(\d+)\s*年度\s*([\w\s]+)字\s*第\s*(\d+)\s*號`. -/
def patJudgmentId : Pat :=
  .seq (.grp 1 (.rep isWordSpace 1 none false))
  (.seq (.rep isPySpace 1 none false)
  (.seq (.grp 2 (.rep Char.isDigit 1 none false))
  (.seq (.rep isPySpace 0 none false)
  (.seq (.lit "年度".data)
  (.seq (.rep isPySpace 0 none false)
  (.seq (.grp 3 (.rep isWordSpace 1 none false))
  (.seq (.lit "字".data)
  (.seq (.rep isPySpace 0 none false)
  (.seq (.lit "第".data)
  (.seq (.rep isPySpace 0 none false)
  (.seq (.grp 4 (.rep Char.isDigit 1 none false))
  (.seq (.rep isPySpace 0 none false)
  (.lit "號".data)))))))))))))

/-- Precise identifier pattern of the production variant:
`((?:臺灣|福建)[\w\s]+?法院(?:[\w\s]+?分院)?)\s+(\d+)\s*年度\s*([\w\s]+?)字\s*第\s*(\d+)\s*號`. -/
def patPrecise : Pat :=
  .seq (.grp 1
    (.seq (.alt (.lit "臺灣".data) (.lit "福建".data))
    (.seq (.rep isWordSpace 1 none true)
    (.seq (.lit "法院".data)
    (.opt (.seq (.rep isWordSpace 1 none true) (.lit "分院".data)))))))
  (.seq (.rep isPySpace 1 none false)
  (.seq (.grp 2 (.rep Char.isDigit 1 none false))
  (.seq (.rep isPySpace 0 none false)
  (.seq (.lit "年度".data)
  (.seq (.rep isPySpace 0 none false)
  (.seq (.grp 3 (.rep isWordSpace 1 none true))
  (.seq (.lit "字".data)
  (.seq (.rep isPySpace 0 none false)
  (.seq (.lit "第".data)
  (.seq (.rep isPySpace 0 none false)
  (.seq (.grp 4 (.rep Char.isDigit 1 none false))
  (.seq (.rep isPySpace 0 none false)
  (.lit "號".data)))))))))))))

/-- ROC date pattern `(\d{1,3})\.(\d{1,2})\.(\d{1,2})`. -/
def patRocDate : Pat :=
  .seq (.grp 1 (.rep Char.isDigit 1 (some 3) false))
  (.seq (.lit ".".data)
  (.seq (.grp 2 (.rep Char.isDigit 1 (some 2) false))
  (.seq (.lit ".".data)
  (.grp 3 (.rep Char.isDigit 1 (some 2) false)))))

/-- Serial-numbered identifier pattern used to pick paragraph blocks:
`(\d+)\.\s+([\w\s]+)\s+(\d+)\s*年度\s*([\w\s]+)字\s*第\s*(\d+)\s*號`. -/
def patSerialId : Pat :=
  .seq (.grp 1 (.rep Char.isDigit 1 none false))
  (.seq (.lit ".".data)
  (.seq (.rep isPySpace 1 none false)
  (.seq (.grp 2 (.rep isWordSpace 1 none false))
  (.seq (.rep isPySpace 1 none false)
  (.seq (.grp 3 (.rep Char.isDigit 1 none false))
  (.seq (.rep isPySpace 0 none false)
  (.seq (.lit "年度".data)
  (.seq (.rep isPySpace 0 none false)
  (.seq (.grp 4 (.rep isWordSpace 1 none false))
  (.seq (.lit "字".data)
  (.seq (.rep isPySpace 0 none false)
  (.seq (.lit "第".data)
  (.seq (.rep isPySpace 0 none false)
  (.seq (.grp 5 (.rep Char.isDigit 1 none false))
  (.seq (.rep isPySpace 0 none false)
  (.lit "號".data))))))))))))))))

/-- Case-category pattern of the block strategy:
`號[\w\s]*?(?:\（.*?\）|\(.*?\))?\s*([\w\s]+)(?:\s|$)`. -/
def patCaseType : Pat :=
  .seq (.lit "號".data)
  (.seq (.rep isWordSpace 0 none true)
  (.seq (.opt (.alt
      (.seq (.lit "（".data) (.seq (.rep isNotNl 0 none true) (.lit "）".data)))
      (.seq (.lit "(".data) (.seq (.rep isNotNl 0 none true) (.lit ")".data)))))
  (.seq (.rep isPySpace 0 none false)
  (.seq (.grp 1 (.rep isWordSpace 1 none false))
  (.alt (.one isPySpace) .eos)))))

/-- Parenthetical-annotation pattern stripped from table identifiers:
`\s*（.*?）\s*|\s*\(.*?\)\s*`. -/
def patParenNote : Pat :=
  .alt
    (.seq (.rep isPySpace 0 none false)
      (.seq (.lit "（".data)
      (.seq (.rep isNotNl 0 none true)
      (.seq (.lit "）".data) (.rep isPySpace 0 none false)))))
    (.seq (.rep isPySpace 0 none false)
      (.seq (.lit "(".data)
      (.seq (.rep isNotNl 0 none true)
      (.seq (.lit ")".data) (.rep isPySpace 0 none false)))))

/-- Query-identifier pattern `q=([a-f0-9]+)`. -/
def patQueryId : Pat :=
  .seq (.lit "q=".data) (.grp 1 (.rep isLowerHex 1 none false))

/-- Client-side redirect pattern for a literal prefix such as
`window.location.href`, continuing `\s*=\s*[quote]?([^quote]+)[quote]?`
where the quote class holds the two ASCII quote characters. -/
def patRedirect (prefixChars : List Char) : Pat :=
  .seq (.lit prefixChars)
  (.seq (.rep isPySpace 0 none false)
  (.seq (.lit "=".data)
  (.seq (.rep isPySpace 0 none false)
  (.seq (.opt (.one (fun c => c = '\'' || c = '"')))
  (.seq (.grp 1 (.rep (fun c => !(c = '\'' || c = '"')) 1 none false))
  (.opt (.one (fun c => c = '\'' || c = '"'))))))))

/-! ## Data model

Parse artifacts of the BeautifulSoup collaborator are carried as structure
fields: the code only consumes the listed projections of the parsed DOM. -/

/-- A table cell: its `get_text(strip=True)` text and the `href` attributes
of its embedded anchors in document order. -/
structure Cell where
  text : String
  hrefs : List String
  deriving DecidableEq, Repr

/-- A table row: its `td` and `th` cells in order. -/
structure Row where
  cells : List Cell
  deriving DecidableEq, Repr

/-- A table: its `id` attribute, its `get_text()` text, and its rows. -/
structure Table where
  idAttr : Option String
  text : String
  rows : List Row
  deriving DecidableEq, Repr

/-- A block-level element: its `get_text(strip=True)` text and the `href`
attributes of its embedded anchors. -/
structure Block where
  text : String
  hrefs : List String
  deriving DecidableEq, Repr

/-- Parsed view of a search-response body as consumed by the
result-location resolver: anchor `href` values, script element texts, and
the flattened `get_text()` of the page. -/
structure SearchView where
  anchorHrefs : List String
  scriptTexts : List String
  pageText : String
  deriving DecidableEq, Repr

/-- Parsed view of a result-list body as consumed by the listing
extractors: all tables, the `div` elements of class `jud`, all `p` and
`div` elements, the `get_text()` text, and the
`get_text(separator, strip=True)` text used by the production variant. -/
structure ListView where
  tables : List Table
  judDivs : List Block
  pdivBlocks : List Block
  fullText : String
  strippedText : String
  deriving DecidableEq, Repr

/-- An HTTP response: status, final URL after redirects, body text, the
body text of the script-and-style-stripped soup (`get_text` with newline
separator), and the parsed views of the body. -/
structure Resp where
  status : Nat
  urlFinal : String
  text : String
  extractedText : String
  searchView : SearchView
  listView : ListView
  deriving DecidableEq, Repr

/-- The transport oracle: a GET returning a response or raising (modelled as
`Except.error` carrying the exception text). -/
abbrev Http := String → Except String Resp

/-- A judgment record as built by the full variant: the four scraped fields
plus the two fields added during enrichment. -/
structure Rec where
  id : String
  date : String
  case_type : String
  url : String
  plain_text_url : Option String := none
  content : Option String := none
  deriving DecidableEq, Repr

/-- Portal base URL (`self.base_url`). -/
def baseUrl : String := "https://judgment.judicial.gov.tw/FJUD/"

/-- Direct search endpoint (`self.direct_search_url`). -/
def directSearchUrl : String := baseUrl ++ "qryresult.aspx"

/-- Absolute-URL resolution applied to scraped `href` values throughout the
source: absolute URLs pass through, host-relative paths gain the host, and
anything else is resolved against the portal base. -/
def resolveUrl (href : String) : String :=
  if pyStartsWith href "http" then href
  else if pyStartsWith href "/" then "https://judgment.judicial.gov.tw" ++ href
  else baseUrl ++ href

/-! ## Date converter (`convert_roc_date_to_ad`) -/

/-- Embeds `convert_roc_date_to_ad`: a dotted ROC date `Y.M.D` becomes the
Gregorian string `YYYYMMDD` with the year shifted by 1911 and the month and
day zero-padded to two digits; any other shape, or a component rejected by
`int`, yields `none`. -/
def convert_roc_date_to_ad (roc_date : String) : Option String :=
  if pyIn "." roc_date then
    match splitOnChar '.' roc_date.data with
    | [p0, p1, p2] =>
      match pyIntParse p0, pyIntParse p1, pyIntParse p2 with
      | some roc_year, some month, some day =>
        some (padIntFmt 4 (roc_year + 1911) ++ padIntFmt 2 month ++ padIntFmt 2 day)
      | _, _, _ => none
    | _ => none
  else none

/-- Parsed component view of a well-formed ROC date input: exactly three
dot-separated components, each accepted by Python `int`. -/
def rocDateComponents (roc_date : String) : Option (Int × Int × Int) :=
  match splitOnChar '.' roc_date.data with
  | [p0, p1, p2] =>
    match pyIntParse p0, pyIntParse p1, pyIntParse p2 with
    | some y, some m, some d => some (y, m, d)
    | _, _, _ => none
  | _ => none

/-! ## Court-code resolver (`get_court_code`) -/

/-- The fixed court-name-to-code table, in source (dict insertion) order. -/
def courtCodeMap : List (String × String) :=
  [("臺灣基隆地方法院", "KLDV"),
   ("內湖簡易庭", "NHEV"),
   ("臺灣臺北地方法院", "TPDV"),
   ("士林地方法院", "SLDV"),
   ("臺灣新北地方法院", "PCDV"),
   ("臺灣桃園地方法院", "TYDV"),
   ("臺灣新竹地方法院", "SCDV"),
   ("臺灣苗栗地方法院", "MLDV"),
   ("臺灣臺中地方法院", "TCDV"),
   ("臺灣南投地方法院", "NTDV"),
   ("臺灣彰化地方法院", "CHDV"),
   ("臺灣雲林地方法院", "YLDV"),
   ("臺灣嘉義地方法院", "CYDV"),
   ("臺灣臺南地方法院", "TNDV"),
   ("臺灣高雄地方法院", "KSDV"),
   ("臺灣屏東地方法院", "PTDV"),
   ("臺灣臺東地方法院", "TTDV"),
   ("臺灣花蓮地方法院", "HLDV"),
   ("臺灣宜蘭地方法院", "ILDV"),
   ("臺灣高等法院", "TPHV"),
   ("羅東簡易庭", "LDEV"),
   ("宜蘭地方法院羅東簡易庭", "LDEV"),
   ("臺東簡易庭", "TTEV"),
   ("臺北簡易庭", "TPEV"),
   ("中壢簡易庭", "TYEV"),
   ("高雄簡易庭", "KSEV")]

/-- Exact-lookup stage: Python `court_name in court_code_map` followed by
subscription, scanning entries in table order. -/
def courtExactLookup (court_name : String) : List (String × String) → Option String
  | [] => none
  | (name, code) :: rest =>
    if name = court_name then some code else courtExactLookup court_name rest

/-- Substring stage: first entry whose name contains the input or is
contained in it. -/
def courtSubstrLookup (court_name : String) : List (String × String) → Option String
  | [] => none
  | (name, code) :: rest =>
    if pyIn name court_name || pyIn court_name name then some code
    else courtSubstrLookup court_name rest

/-- Summary-court stage: first entry whose name, with the district-court
suffix removed, occurs in the input; its code with `DV` replaced by `EV`. -/
def courtSummaryLookup (court_name : String) : List (String × String) → Option String
  | [] => none
  | (name, code) :: rest =>
    if pyIn (pyReplace name "地方法院" "") court_name then
      some (pyReplace code "DV" "EV")
    else courtSummaryLookup court_name rest

/-- Embeds `get_court_code`: exact lookup, then bidirectional substring
containment, then the summary-court heuristic, else unresolved. -/
def get_court_code (court_name : String) : Option String :=
  match courtExactLookup court_name courtCodeMap with
  | some code => some code
  | none =>
    match courtSubstrLookup court_name courtCodeMap with
    | some code => some code
    | none =>
      if pyIn "簡易庭" court_name then courtSummaryLookup court_name courtCodeMap
      else none

/-! ## Identifier parser (`parse_judgment_id`) -/

/-- Embeds `parse_judgment_id`: leftmost match of the identifier pattern,
each captured group stripped.  The Python function returns a tuple of four
`None` on failure; callers only test that case through `all(...)`, so the
failure case is modelled as `none`. -/
def parse_judgment_id (judgment_id : String) :
    Option (String × String × String × String) :=
  (reSearch patJudgmentId judgment_id.data).map fun caps =>
    (pyStrip (capStr caps 1), pyStrip (capStr caps 2),
     pyStrip (capStr caps 3), pyStrip (capStr caps 4))

/-! ## Result-location resolver (`extract_query_result_url`)

The production and full variants share this logic (the full variant adds
only logging and debug dumps).  `html` is the raw response body; the parsed
artifacts of the same body arrive in the `SearchView`. -/

/-- The four fixed error phrases checked before any other strategy. -/
def errorMessages : List String :=
  ["檢索之檢索詞彙無效", "查無符合條件資料", "系統忙碌中", "系統發生錯誤"]

/-- Literal prefixes of the three client-side redirect patterns, in source
order. -/
def redirectPrefixes : List String :=
  ["window.location.href", "location.href", "window.location"]

/-- Embeds `extract_query_result_url`: error phrases first, then anchors
carrying the listing endpoint and a query identifier, then script
redirects, then a bare query identifier in the page text. -/
def extract_query_result_url (html : String) (v : SearchView) : Option String :=
  if errorMessages.any (fun error => pyIn error html) then none
  else
    match v.anchorHrefs.find? (fun href =>
        (reSearch patQueryId href.data).isSome && pyIn "qryresultlst.aspx" href) with
    | some href => some (resolveUrl href)
    | none =>
      match redirectPrefixes.findSome? (fun pre =>
          v.scriptTexts.findSome? (fun script_text =>
            match reSearch (patRedirect pre.data) script_text.data with
            | some caps =>
              let redirect_url := capStr caps 1
              if pyIn "qryresultlst.aspx" redirect_url then
                some (resolveUrl redirect_url)
              else none
            | none => none)) with
      | some full_url => some full_url
      | none =>
        match reSearch patQueryId v.pageText.data with
        | some caps =>
          some (baseUrl ++ "qryresultlst.aspx?ty=SIMJUDBOOK&q=" ++ capStr caps 1)
        | none => none

/-! ## Plain-text URL deriver -/

/-- The probe validity criterion shared by both probing loops: HTTP 200, a
body longer than 100 characters, and neither the no-data phrase nor the
error phrase in the body. -/
def validResp (r : Resp) : Bool :=
  r.status == 200 && decide (100 < r.text.length) &&
    !(pyIn "查無資料" r.text) && !(pyIn "錯誤" r.text)

/-- A probe request together with its exception handling: a transport error
is caught and counts as an unsuccessful probe (the loop continues). -/
def isValidProbe (http : Http) (url : String) : Bool :=
  match http url with
  | .ok r => validResp r
  | .error _ => false

/-- The plain-text export URL template used by both derivation strategies:
`https://judgment.judicial.gov.tw/EXPORTFILE/reformat.aspx` with `type=JD`,
the identifier parameter, an empty `lawpara` and the render flag. -/
def reformatUrl (idParam flag : String) : String :=
  "https://judgment.judicial.gov.tw/EXPORTFILE/reformat.aspx?type=JD&id=" ++
    idParam ++ "&lawpara=&ispdf=" ++ flag

/-- Render-flag probing loop of `construct_plain_text_url`; when no flag
validates, the loop falls back to the flag-1 URL unconditionally. -/
def constructFlagLoop (http : Http) (encoded_id : String) : List String → String
  | [] => reformatUrl encoded_id "1"
  | ispdf :: rest =>
    let url := reformatUrl encoded_id ispdf
    if isValidProbe http url then url else constructFlagLoop http encoded_id rest

/-- Embeds `construct_plain_text_url`: join the six parameters with commas,
percent-encode, probe flag 1 then flag 0, and fall back to the flag-1 URL. -/
def construct_plain_text_url (http : Http)
    (court_code year case_type case_number judgment_date : String)
    (version : Nat) : String :=
  let id_param := String.intercalate ","
    [court_code, year, case_type, case_number, judgment_date, toString version]
  let encoded_id := pyQuote id_param
  constructFlagLoop http encoded_id ["1", "0"]

/-- Render-flag probing loop of the direct-rewrite strategy; unlike the
synthesized loop it has no fallback and the identifier parameter is the
value decoded by `parse_qs`, embedded without re-encoding. -/
def directRewriteLoop (http : Http) (id_param : String) : List String → Option String
  | [] => none
  | ispdf :: rest =>
    let plain_text_url := reformatUrl id_param ispdf
    if isValidProbe http plain_text_url then some plain_text_url
    else directRewriteLoop http id_param rest

/-- Direct-rewrite strategy of `generate_plain_text_url_for_judgment`:
extract the `id` query parameter of the known source URL via `parse_qs`
and probe the rewritten export URL with flag 1 then flag 0. -/
def directRewrite (http : Http) (original_url : String) : Option String :=
  match pyParseQsFirst "id" (pyUrlQuery original_url) with
  | some id_param => directRewriteLoop http id_param ["1", "0"]
  | none => none

/-- Version loop of `generate_plain_text_url_for_judgment`: versions 1
through 5, returning the first truthy (non-empty) constructed URL. -/
def versionLoop (http : Http)
    (court_code year case_type case_number date_ad : String) : List Nat → Option String
  | [] => none
  | version :: rest =>
    let plain_text_url :=
      construct_plain_text_url http court_code year case_type case_number date_ad version
    if plain_text_url != "" then some plain_text_url
    else versionLoop http court_code year case_type case_number date_ad rest

/-- Embeds `generate_plain_text_url_for_judgment`: the direct-rewrite
strategy when the record carries a known document URL, otherwise identifier
parsing, court-code resolution and date conversion feeding the synthesized
construction loop; any stage failure yields `none`. -/
def generate_plain_text_url_for_judgment (http : Http) (j : Rec) : Option String :=
  let direct :=
    if j.url != "" && pyIn "FJUD/data.aspx" j.url then directRewrite http j.url
    else none
  match direct with
  | some plain_text_url => some plain_text_url
  | none =>
    match parse_judgment_id j.id with
    | none => none
    | some (court_name, year, case_type, case_number) =>
      if court_name = "" || year = "" || case_type = "" || case_number = "" then none
      else
        match get_court_code court_name with
        | none => none
        | some court_code =>
          match convert_roc_date_to_ad j.date with
          | none => none
          | some judgment_date_ad =>
            versionLoop http court_code year case_type case_number judgment_date_ad
              [1, 2, 3, 4, 5]

/-! ## Content fetcher (`fetch_judgment_content`) -/

/-- Exception text of `response.raise_for_status` (the concrete message of
the requests library is abstracted to the status code). -/
def httpErrorText (status : Nat) : String :=
  toString status ++ " Error"

/-- Embeds `response.raise_for_status()`: statuses of 400 and above raise. -/
def raiseForStatus (r : Resp) : Except String Unit :=
  if 400 ≤ r.status then Except.error (httpErrorText r.status) else Except.ok ()

/-- Pattern `[\r\n]+`. -/
def patNewlineRun : Pat :=
  .rep (fun c => c = '\r' || c = '\n') 1 none false

/-- Pattern of one or more spaces. -/
def patSpaceRun : Pat :=
  .rep (fun c => c = ' ') 1 none false

/-- Embeds `fetch_judgment_content`: fetch, raise on HTTP error, flatten the
script-and-style-stripped soup to text, collapse newline and space runs,
trim, and truncate over 500000 characters; every exception is caught and
converted to a failure-message string. -/
def fetch_judgment_content (http : Http) (url : String) : String :=
  match http url with
  | .error e => "獲取內容失敗: " ++ e
  | .ok r =>
    match raiseForStatus r with
    | .error e => "獲取內容失敗: " ++ e
    | .ok _ =>
      let text := pyStrip r.extractedText
      let text := String.mk (reSubAllAux patNewlineRun "\n".data (text.data.length + 1) text.data)
      let text := String.mk (reSubAllAux patSpaceRun " ".data (text.data.length + 1) text.data)
      let text := pyStrip text
      if 500000 < text.length then
        String.mk (text.data.take 500000) ++ "...(內容過長，已截斷)"
      else text

/-! ## Listing extractors -/

/-- The canonical identifier template shared by every reconstruction site in
both variants. -/
def canonicalId (court year case_type number : String) : String :=
  court ++ " " ++ year ++ " 年度 " ++ case_type ++ "字 第 " ++ number ++ " 號"

/-- Result-table location shared by both variants: the table with id
`gvMain`, or the first table whose text carries both header phrases. -/
def findResultTable (tables : List Table) : Option Table :=
  tables.find? fun t =>
    t.idAttr == some "gvMain" || (pyIn "裁判字號" t.text && pyIn "裁判日期" t.text)

/-- One data row of the table strategy of the full variant: rows with fewer
than three cells are skipped; the second cell text, stripped of
parenthetical annotations, is the identifier; the third cell is the date,
the fourth (when present) the case category; the first anchor of the
identifier cell, resolved absolutely, is the source URL. -/
def tableRowRecord (row : Row) : Option Rec :=
  match row.cells with
  | _ :: judgment_cell :: date_cell :: rest =>
    let judgment_text := judgment_cell.text
    let judgment_id := String.mk
      (reSubAllAux patParenNote [] (judgment_text.data.length + 1) judgment_text.data)
    let judgment_date := date_cell.text
    let case_type := match rest.head? with | some c => c.text | none => ""
    let judgment_url := match judgment_cell.hrefs.head? with
      | some href => resolveUrl href
      | none => ""
    some { id := judgment_id, date := judgment_date,
           case_type := case_type, url := judgment_url }
  | _ => none

/-- Table strategy of the full variant: all data rows after the header. -/
def tableRecords (t : Table) : List Rec :=
  (t.rows.drop 1).filterMap tableRowRecord

/-- One block of the block strategy of the full variant: identifier pattern
in the block text (reconstructed through the canonical template), first ROC
date in the block text, case category by its own pattern, first anchor as
the source URL. -/
def blockRecord (block : Block) : Option Rec :=
  let text := block.text
  match reSearch patJudgmentId text.data with
  | none => none
  | some caps =>
    let judgment_id := canonicalId (pyStrip (capStr caps 1)) (pyStrip (capStr caps 2))
      (pyStrip (capStr caps 3)) (pyStrip (capStr caps 4))
    let judgment_date :=
      match reSearch patRocDate text.data with
      | some dcaps => capStr dcaps 1 ++ "." ++ capStr dcaps 2 ++ "." ++ capStr dcaps 3
      | none => ""
    let case_type :=
      match reSearch patCaseType text.data with
      | some ccaps => pyStrip (capStr ccaps 1)
      | none => ""
    let judgment_url := match block.hrefs.head? with
      | some href => resolveUrl href
      | none => ""
    some { id := judgment_id, date := judgment_date,
           case_type := case_type, url := judgment_url }

/-- Block strategy of the full variant: the `jud` divs, or failing those the
paragraph blocks matching the serial-numbered identifier pattern. -/
def blockRecords (v : ListView) : List Rec :=
  let judgment_blocks :=
    if v.judDivs.isEmpty then
      v.pdivBlocks.filter (fun p => (reSearch patSerialId p.text.data).isSome)
    else v.judDivs
  judgment_blocks.filterMap blockRecord

/-- Raw-text strategy of the full variant: every identifier match in the
flattened page text, reconstructed through the canonical template, with the
first ROC date in a window of fifty characters before to one hundred after
the match; case category and URL stay empty. -/
def rawRecords (text : String) : List Rec :=
  (finditer patJudgmentId text.data).map fun m =>
    let caps := m.2.2
    let judgment_id := canonicalId (pyStrip (capStr caps 1)) (pyStrip (capStr caps 2))
      (pyStrip (capStr caps 3)) (pyStrip (capStr caps 4))
    let context := String.mk ((text.data.take (min text.data.length (m.2.1 + 100))).drop (m.1 - 50))
    let judgment_date :=
      match reSearch patRocDate context.data with
      | some dcaps => capStr dcaps 1 ++ "." ++ capStr dcaps 2 ++ "." ++ capStr dcaps 3
      | none => ""
    { id := judgment_id, date := judgment_date, case_type := "", url := "" }

/-- Embeds the full variant `extract_judgments_from_list` (the result-count
logging at its head changes no output): the table strategy when a result
table is located, otherwise the block strategy; the raw-text strategy is
appended exactly when the chosen strategy produced nothing. -/
def extract_judgments_from_list_test (v : ListView) : List Rec :=
  let judgments :=
    match findResultTable v.tables with
    | some result_table => tableRecords result_table
    | none => blockRecords v
  if judgments.isEmpty then judgments ++ rawRecords v.fullText else judgments

/-- Production table stage: the second cell text of each data row with at
least two cells. -/
def prodRowId (row : Row) : Option String :=
  match row.cells with
  | _ :: judgment_cell :: _ => some judgment_cell.text
  | _ => none

/-- Reconstruction of the canonical identifier from the captures of the
precise pattern, as done at both production reconstruction sites. -/
def prodReconstruct (caps : Caps) : String :=
  canonicalId (pyStrip (capStr caps 1)) (pyStrip (capStr caps 2))
    (pyStrip (capStr caps 3)) (pyStrip (capStr caps 4))

/-- Production cleanup stage for one candidate string: empty strings are
skipped; otherwise the first precise-pattern match of the stripped string is
reconstructed through the canonical template; non-matching strings are
dropped. -/
def prodCleanId (text : String) : Option String :=
  if text = "" then none
  else
    match reSearch patPrecise (pyStrip text).data with
    | some caps => some (prodReconstruct caps)
    | none => none

/-- First-occurrence deduplication.  CPython collects the cleaned
identifiers into a set and returns `list` of it, whose iteration order is
unspecified; the model fixes first-occurrence order and the theorems rely
only on membership. -/
def dedupeAux (seen : List String) : List String → List String
  | [] => []
  | x :: rest =>
    if seen.contains x then dedupeAux seen rest
    else x :: dedupeAux (x :: seen) rest

/-- Deduplicate keeping first occurrences. -/
def dedupe (l : List String) : List String :=
  dedupeAux [] l

/-- Embeds the production `extract_judgments_from_list`: table-cell texts
when a result table is located, otherwise every precise-pattern match of the
stripped page text reconstructed canonically; then the cleanup stage and
deduplication. -/
def extract_judgments_from_list_prod (v : ListView) : List String :=
  let potential_ids :=
    match findResultTable v.tables with
    | some result_table => (result_table.rows.drop 1).filterMap prodRowId
    | none => []
  let potential_ids :=
    if potential_ids.isEmpty then
      (finditer patPrecise v.strippedText.data).map (fun m => prodReconstruct m.2.2)
    else potential_ids
  dedupe (potential_ids.filterMap prodCleanId)

/-! ## Search pipelines -/

/-- Enrichment loop of the full variant `search_judgments` (its final
per-record stage): derive a plain-text URL for each record; on success
attach the URL and the fetched content and keep the record, on failure drop
the record and continue with the rest. -/
def processJudgments (http : Http) : List Rec → List Rec
  | [] => []
  | judgment :: rest =>
    match generate_plain_text_url_for_judgment http judgment with
    | some plain_text_url =>
      { judgment with
        plain_text_url := some plain_text_url,
        content := some (fetch_judgment_content http plain_text_url) } ::
        processJudgments http rest
    | none => processJudgments http rest

/-- Result-page stage of the full variant search: extract records; an empty
extraction returns the empty list, otherwise the enrichment loop runs. -/
def searchProceed (http : Http) (r : Resp) : Option (List Rec) :=
  let judgments := extract_judgments_from_list_test r.listView
  if judgments.isEmpty then some []
  else some (processJudgments http judgments)

/-- Embeds the full variant `search_judgments`: direct search request, then
either the response is already the listing page or the resolver locates it
and it is fetched; `none` models both a raised exception caught by the
enclosing handler and the explicit no-result-URL return. -/
def search_judgments_test (http : Http) (query_string : String) : Option (List Rec) :=
  match http (directSearchUrl ++ "?akw=" ++ pyQuote query_string) with
  | .error _ => none
  | .ok r =>
    match raiseForStatus r with
    | .error _ => none
    | .ok _ =>
      if pyIn "qryresultlst.aspx" r.urlFinal then searchProceed http r
      else
        match extract_query_result_url r.text r.searchView with
        | none => none
        | some result_url =>
          match http result_url with
          | .error _ => none
          | .ok r2 =>
            match raiseForStatus r2 with
            | .error _ => none
            | .ok _ => searchProceed http r2

/-- Embeds the production `search_judgments`: the same resolution flow, with
every raised request error caught and converted to the empty list. -/
def search_judgments_prod (http : Http) (query_string : String) : List String :=
  match http (directSearchUrl ++ "?akw=" ++ pyQuote query_string) with
  | .error _ => []
  | .ok r =>
    match raiseForStatus r with
    | .error _ => []
    | .ok _ =>
      if pyIn "qryresultlst.aspx" r.urlFinal then
        extract_judgments_from_list_prod r.listView
      else
        match extract_query_result_url r.text r.searchView with
        | none => []
        | some extracted_url =>
          match http extracted_url with
          | .error _ => []
          | .ok r2 =>
            match raiseForStatus r2 with
            | .error _ => []
            | .ok _ => extract_judgments_from_list_prod r2.listView

/-! ## Claim-side definitions

Each definition below follows the words of the specification or of a claim,
for comparison against the source-derived definitions above. -/

/-- Modelled from the claim on the synthesized-construction strategy: probe
versions 1 through 5 in increasing order, render flag 1 then 0 for each
version, return the first candidate that validates; when every combination
fails, fall back to the flag-1 URL of the last-tried version. -/
def claimedSynthUrl (http : Http)
    (court_code year case_type case_number judgment_date : String) : String :=
  let cand := fun (v : Nat) (flag : String) =>
    reformatUrl (pyQuote (String.intercalate ","
      [court_code, year, case_type, case_number, judgment_date, toString v])) flag
  match ([1, 2, 3, 4, 5].flatMap (fun v => [(v, "1"), (v, "0")])).find?
      (fun p => isValidProbe http (cand p.1 p.2)) with
  | some p => cand p.1 p.2
  | none => cand 5 "1"

/-- Modelled from the claim on strategy order of the listing extractor: the
table strategy when it yields records, then the block strategy when the
table matched nothing or yielded nothing, then the raw-text strategy. -/
def claimedExtractTest (v : ListView) : List Rec :=
  let table_yield :=
    match findResultTable v.tables with
    | some result_table => tableRecords result_table
    | none => []
  if !table_yield.isEmpty then table_yield
  else
    let block_yield := blockRecords v
    if !block_yield.isEmpty then block_yield
    else rawRecords v.fullText

/-- Modelled from the claim on the direct-rewrite strategy: the identifier
token exactly as it appears (byte for byte) in the source URL, between the
id marker and the following ampersand. -/
def rawIdToken (url : String) : Option String :=
  (reSearch (.seq (.lit "id=".data)
    (.grp 1 (.rep (fun c => c != '&') 1 none false))) url.data).map
    (fun caps => capStr caps 1)

/-- Modelled from the claim on court-code resolution: exact table lookup,
then the first bidirectional substring containment in preserved table order,
then the summary-court heuristic, otherwise unresolved. -/
def claimedCourtResolver (court_name : String) : Option String :=
  ((courtCodeMap.find? (fun p => p.1 == court_name)).map Prod.snd).orElse fun _ =>
    ((courtCodeMap.find? (fun p =>
      pyIn p.1 court_name || pyIn court_name p.1)).map Prod.snd).orElse fun _ =>
      if pyIn "簡易庭" court_name then
        (courtCodeMap.find? (fun p =>
          pyIn (pyReplace p.1 "地方法院" "") court_name)).map
          (fun p => pyReplace p.2 "DV" "EV")
      else none

/-! ## Concrete fixtures -/

/-- Search view with no artifacts. -/
def emptySearchView : SearchView :=
  { anchorHrefs := [], scriptTexts := [], pageText := "" }

/-- List view with no artifacts. -/
def emptyListView : ListView :=
  { tables := [], judDivs := [], pdivBlocks := [], fullText := "", strippedText := "" }

/-- A body longer than the 100-character validity threshold. -/
def longBody : String :=
  String.mk (List.replicate 101 'x')

/-- A response that satisfies the probe validity criterion. -/
def okResp : Resp :=
  { status := 200, urlFinal := "", text := longBody, extractedText := "hello",
    searchView := emptySearchView, listView := emptyListView }

/-- A response that fails the probe validity criterion. -/
def badResp : Resp :=
  { status := 404, urlFinal := "", text := "", extractedText := "",
    searchView := emptySearchView, listView := emptyListView }

/-- Transport oracle on which every probe fails. -/
def httpAllFail : Http := fun _ => Except.ok badResp

/-- Transport oracle on which every probe validates. -/
def httpAllOk : Http := fun _ => Except.ok okResp

/-- Transport oracle on which every request raises. -/
def httpDown : Http := fun _ => Except.error "boom"

/-- A record whose identifier parses, whose court resolves and whose date
converts, with no known source URL. -/
def jSynth : Rec :=
  { id := "臺北簡易庭 108 年度 A字 第 3 號", date := "100.1.1", case_type := "", url := "" }

/-- A record whose identifier matches no identifier pattern. -/
def jUnparsable : Rec :=
  { id := "garbage", date := "", case_type := "", url := "" }

/-- A record carrying a known document URL whose identifier parameter holds
a percent-encoded comma. -/
def jDirect : Rec :=
  { id := "x", date := "", case_type := "",
    url := "https://judgment.judicial.gov.tw/FJUD/data.aspx?id=a%2Cb" }

/-- The flag-1 export URL synthesized for `jSynth` at version 1. -/
def urlSynthV1 : String :=
  "https://judgment.judicial.gov.tw/EXPORTFILE/reformat.aspx?type=JD&id=TPEV%2C108%2CA%2C3%2C20110101%2C1&lawpara=&ispdf=1"

/-- The flag-1 export URL synthesized for `jSynth` at version 5. -/
def urlSynthV5 : String :=
  "https://judgment.judicial.gov.tw/EXPORTFILE/reformat.aspx?type=JD&id=TPEV%2C108%2CA%2C3%2C20110101%2C5&lawpara=&ispdf=1"

/-- `jSynth` after enrichment under `httpAllOk`. -/
def recEnriched : Rec :=
  { id := "臺北簡易庭 108 年度 A字 第 3 號", date := "100.1.1", case_type := "", url := "",
    plain_text_url := some urlSynthV1, content := some "hello" }

/-- A header row (skipped by every table strategy). -/
def rowHeader : Row := { cells := [] }

/-- A data row whose identifier cell text has no internal whitespace. -/
def rowVerbatim : Row :=
  { cells := [{ text := "1", hrefs := [] },
              { text := "臺北簡易庭108年度A字第3號", hrefs := [] },
              { text := "108.05.01", hrefs := [] },
              { text := "侵權", hrefs := [] }] }

/-- A result table holding `rowVerbatim`. -/
def tableVerbatim : Table :=
  { idAttr := some "gvMain", text := "", rows := [rowHeader, rowVerbatim] }

/-- A listing page whose table strategy emits a verbatim identifier. -/
def pageVerbatim : ListView :=
  { tables := [tableVerbatim], judDivs := [], pdivBlocks := [],
    fullText := "", strippedText := "" }

/-- The record the table strategy extracts from `pageVerbatim`. -/
def recVerbatim : Rec :=
  { id := "臺北簡易庭108年度A字第3號", date := "108.05.01", case_type := "侵權", url := "" }

/-- A result table that matches but yields no data rows. -/
def tableEmptyYield : Table :=
  { idAttr := some "gvMain", text := "", rows := [rowHeader] }

/-- A block element holding an identifier, a date and a link. -/
def blockLinked : Block :=
  { text := "臺灣臺北地方法院 108 年度 民字 第 100 號 108.05.01",
    hrefs := ["/FJUD/data.aspx?id=z"] }

/-- A listing page with a matching-but-empty table, a matching block and
the identifier in the page text. -/
def pageTableEmpty : ListView :=
  { tables := [tableEmptyYield], judDivs := [blockLinked], pdivBlocks := [],
    fullText := "臺灣臺北地方法院 108 年度 民字 第 100 號 108.05.01", strippedText := "" }

/-- The record the block strategy would extract from `pageTableEmpty`. -/
def recBlockLinked : Rec :=
  { id := "臺灣臺北地方法院 108 年度 民字 第 100 號", date := "108.05.01",
    case_type := "", url := "https://judgment.judicial.gov.tw/FJUD/data.aspx?id=z" }

/-- A listing page carrying one precise identifier in its stripped text. -/
def pageProdText : ListView :=
  { tables := [], judDivs := [], pdivBlocks := [], fullText := "",
    strippedText := "臺灣臺北地方法院 108 年度 民字 第 100 號" }

/-- A search view holding a well-formed listing link. -/
def viewWithLink : SearchView :=
  { anchorHrefs := ["/FJUD/qryresultlst.aspx?q=ab12"], scriptTexts := [], pageText := "" }

/-- A data row for the end-to-end pipeline fixture. -/
def rowListing : Row :=
  { cells := [{ text := "1", hrefs := [] },
              { text := "臺北簡易庭 108 年度 A字 第 3 號", hrefs := [] },
              { text := "100.1.1", hrefs := [] }] }

/-- A result table for the end-to-end pipeline fixture. -/
def tableListing : Table :=
  { idAttr := some "gvMain", text := "", rows := [rowHeader, rowListing] }

/-- A listing page for the end-to-end pipeline fixture. -/
def pageListing : ListView :=
  { tables := [tableListing], judDivs := [], pdivBlocks := [],
    fullText := "", strippedText := "" }

/-- A search response already redirected to the listing page. -/
def respListing : Resp :=
  { status := 200,
    urlFinal := "https://judgment.judicial.gov.tw/FJUD/qryresultlst.aspx?q=ab",
    text := "", extractedText := "",
    searchView := emptySearchView, listView := pageListing }

/-- Transport oracle driving a full successful search for the query `x`:
the search request redirects to the listing, the version-1 flag-1 probe
validates, and every other probe fails. -/
def httpPipeline : Http := fun u =>
  if u = "https://judgment.judicial.gov.tw/FJUD/qryresult.aspx?akw=x" then Except.ok respListing
  else if u = urlSynthV1 then Except.ok okResp
  else Except.ok badResp

/-! ## Helper lemmas -/

set_option maxRecDepth 10000

theorem stringDataAppend (a b : String) : (a ++ b).data = a.data ++ b.data := by
  cases a; cases b; rfl

theorem reformatUrl_ne_empty (idParam flag : String) : reformatUrl idParam flag ≠ "" := by
  intro h
  have hd := congrArg String.data h
  rw [reformatUrl] at hd
  simp only [stringDataAppend] at hd
  simp at hd

theorem constructFlagLoop_ne_empty (http : Http) (e : String) :
    ∀ l, constructFlagLoop http e l ≠ ""
  | [] => reformatUrl_ne_empty e "1"
  | f :: rest => by
    simp only [constructFlagLoop]
    split
    · exact reformatUrl_ne_empty e f
    · exact constructFlagLoop_ne_empty http e rest

theorem construct_ne_empty (http : Http) (cc y t n d : String) (v : Nat) :
    construct_plain_text_url http cc y t n d v ≠ "" := by
  simp only [construct_plain_text_url]
  exact constructFlagLoop_ne_empty http _ _

theorem splitOnChar_no_sep (sep : Char) :
    ∀ cs : List Char, sublistContains [sep] cs = false → splitOnChar sep cs = [cs]
  | [], _ => rfl
  | c :: rest, h => by
    simp only [sublistContains, List.isPrefixOf, Bool.or_eq_false_iff] at h
    obtain ⟨h1, h2⟩ := h
    have hc : ¬ c = sep := by
      intro hcs
      subst hcs
      simp [List.isPrefixOf] at h1
    simp only [splitOnChar, splitOnChar_no_sep sep rest h2, if_neg hc]

theorem courtExactLookup_eq (n : String) :
    ∀ l, courtExactLookup n l = (l.find? (fun p => p.1 == n)).map Prod.snd
  | [] => rfl
  | (name, code) :: rest => by
    by_cases h : name = n
    · simp [courtExactLookup, List.find?, h]
    · simp only [courtExactLookup, List.find?]
      rw [if_neg h]
      have hb : ((name, code).1 == n) = false := by
        simp [h]
      rw [hb]
      exact courtExactLookup_eq n rest

theorem courtSubstrLookup_eq (n : String) :
    ∀ l, courtSubstrLookup n l =
      (l.find? (fun p => pyIn p.1 n || pyIn n p.1)).map Prod.snd
  | [] => rfl
  | (name, code) :: rest => by
    simp only [courtSubstrLookup, List.find?]
    by_cases h : (pyIn name n || pyIn n name) = true
    · simp [h]
    · have hb : (pyIn name n || pyIn n name) = false := by
        rwa [Bool.not_eq_true] at h
      rw [if_neg h, hb]
      exact courtSubstrLookup_eq n rest

theorem courtSummaryLookup_eq (n : String) :
    ∀ l, courtSummaryLookup n l =
      (l.find? (fun p => pyIn (pyReplace p.1 "地方法院" "") n)).map
        (fun p => pyReplace p.2 "DV" "EV")
  | [] => rfl
  | (name, code) :: rest => by
    simp only [courtSummaryLookup, List.find?]
    by_cases h : pyIn (pyReplace name "地方法院" "") n = true
    · simp [h]
    · have hb : pyIn (pyReplace name "地方法院" "") n = false := by
        rwa [Bool.not_eq_true] at h
      rw [if_neg h, hb]
      exact courtSummaryLookup_eq n rest

theorem mem_processJudgments (http : Http) :
    ∀ (js : List Rec) (r : Rec), r ∈ processJudgments http js →
      r.plain_text_url.isSome ∧ r.content.isSome
  | [], r, h => by cases h
  | j :: rest, r, h => by
    revert h
    simp only [processJudgments]
    cases hg : generate_plain_text_url_for_judgment http j with
    | some u =>
      intro h
      rcases List.mem_cons.1 h with h1 | h2
      · subst h1; exact ⟨rfl, rfl⟩
      · exact mem_processJudgments http rest r h2
    | none =>
      intro h
      exact mem_processJudgments http rest r h

theorem searchProceed_mem (http : Http) (resp : Resp) (recs : List Rec) (r : Rec)
    (hs : searchProceed http resp = some recs) (hr : r ∈ recs) :
    r.plain_text_url.isSome ∧ r.content.isSome := by
  revert hs
  simp only [searchProceed]
  split
  · intro hs
    injection hs with hs
    subst hs
    cases hr
  · intro hs
    injection hs with hs
    subst hs
    exact mem_processJudgments http _ r hr

theorem mem_dedupeAux (x : String) :
    ∀ (seen l : List String), x ∈ dedupeAux seen l → x ∈ l
  | _, [], h => by cases h
  | seen, y :: rest, h => by
    revert h
    simp only [dedupeAux]
    split
    · intro h
      exact List.mem_cons_of_mem y (mem_dedupeAux x seen rest h)
    · intro h
      rcases List.mem_cons.1 h with h1 | h2
      · exact h1 ▸ List.mem_cons_self x rest
      · exact List.mem_cons_of_mem y (mem_dedupeAux x _ rest h2)

theorem isPrefixOf_append_self : ∀ (l t : List Char), l.isPrefixOf (l ++ t) = true
  | [], _ => by simp [List.isPrefixOf]
  | c :: rest, t => by
    simp [List.isPrefixOf, isPrefixOf_append_self rest t]

theorem sublistContains_append_left (needle : List Char) :
    ∀ (pre t : List Char), sublistContains needle t = true →
      sublistContains needle (pre ++ t) = true
  | [], _, h => h
  | c :: pre, t, h => by
    have ih := sublistContains_append_left needle pre t h
    simp only [List.cons_append, sublistContains, List.append_eq, ih, Bool.or_true]

theorem sublistContains_self_append (needle post : List Char) (hne : needle ≠ []) :
    sublistContains needle (needle ++ post) = true := by
  cases needle with
  | nil => exact absurd rfl hne
  | cons c rest =>
    have hp := isPrefixOf_append_self (c :: rest) post
    simp only [List.cons_append] at hp
    simp only [List.cons_append, sublistContains, hp, Bool.true_or]

/-- Every output of the canonical template contains the spaced year marker;
with the decidable absence of that marker in a concrete identifier this
shows the identifier lies outside the template image. -/
theorem canonicalId_contains_marker (c y t n : String) :
    pyIn " 年度 " (canonicalId c y t n) = true := by
  show sublistContains " 年度 ".data (canonicalId c y t n).data = true
  simp only [canonicalId, stringDataAppend, List.append_assoc]
  apply sublistContains_append_left
  apply sublistContains_append_left
  apply sublistContains_append_left
  exact sublistContains_self_append _ _ (by decide)

/-! ## Claim C1 -/

/-- Claim C1 counterexample: with every probe failing, the code returns the
flag-1 URL for version 1 after probing only version 1, while the claimed
behaviour (probe versions 1 through 5, fall back to the last-tried version)
yields the flag-1 URL for version 5; the two URLs differ. -/
theorem C1_counterexample :
    generate_plain_text_url_for_judgment httpAllFail jSynth = some urlSynthV1 ∧
    claimedSynthUrl httpAllFail "TPEV" "108" "A" "3" "20110101" = urlSynthV5 ∧
    urlSynthV1 ≠ urlSynthV5 :=
  ⟨by decide, by decide, by decide⟩

/-- Claim C1 (amended): in the synthesized-construction strategy, for every
record whose identifier parse, court-code resolution and date conversion
succeed, only version 1 is ever probed — the construction helper always
returns a URL (the first validating flag among 1 and 0, else the flag-1 URL
of its own version as unconditional fallback), so the version loop returns
on its first iteration and versions 2 through 5 are never tried. -/
theorem C1_amended_theorem (http : Http) (j : Rec) (c y t n cc d : String)
    (hurl : j.url = "")
    (hparse : parse_judgment_id j.id = some (c, y, t, n))
    (hc : c ≠ "") (hy : y ≠ "") (ht : t ≠ "") (hn : n ≠ "")
    (hcourt : get_court_code c = some cc)
    (hdate : convert_roc_date_to_ad j.date = some d) :
    generate_plain_text_url_for_judgment http j =
      some (construct_plain_text_url http cc y t n d 1) ∧
    (∀ v : Nat, construct_plain_text_url http cc y t n d v =
      (let u1 := reformatUrl
        (pyQuote (String.intercalate "," [cc, y, t, n, d, toString v])) "1"
       let u0 := reformatUrl
        (pyQuote (String.intercalate "," [cc, y, t, n, d, toString v])) "0"
       if isValidProbe http u1 then u1
       else if isValidProbe http u0 then u0
       else u1)) := by
  constructor
  · have hne : construct_plain_text_url http cc y t n d 1 ≠ "" :=
      construct_ne_empty http cc y t n d 1
    simp only [generate_plain_text_url_for_judgment, hurl, hparse, versionLoop]
    simp [hc, hy, ht, hn, hcourt, hdate, bne_iff_ne, hne]
  · intro v
    simp only [construct_plain_text_url, constructFlagLoop]

/-- Claim C1 witness: the amended theorem applied to the concrete record
`jSynth` under the all-failing oracle. -/
theorem C1_witness :
    jSynth.url = "" ∧
    parse_judgment_id jSynth.id = some ("臺北簡易庭", "108", "A", "3") ∧
    generate_plain_text_url_for_judgment httpAllFail jSynth =
      some (construct_plain_text_url httpAllFail "TPEV" "108" "A" "3" "20110101" 1) :=
  ⟨rfl, by decide,
   (C1_amended_theorem httpAllFail jSynth "臺北簡易庭" "108" "A" "3" "TPEV" "20110101"
     rfl (by decide) (by decide) (by decide) (by decide) (by decide)
     (by decide) (by decide)).1⟩

/-! ## Claim C2 -/

/-- Claim C2 counterexample: the full variant table strategy passes the cell
text through verbatim (only parenthetical annotations are stripped), so a
cell without internal whitespace yields an identifier that is not in the
canonical-template image (it lacks the spaced year marker every template
output contains) and does not re-parse, so the round-trip fails. -/
theorem C2_counterexample :
    extract_judgments_from_list_test pageVerbatim = [recVerbatim] ∧
    recVerbatim.id = "臺北簡易庭108年度A字第3號" ∧
    pyIn " 年度 " recVerbatim.id = false ∧
    parse_judgment_id recVerbatim.id = none :=
  ⟨by decide, by decide, by decide, by decide⟩

/-- Claim C2 (amended): identifiers produced by the full variant block and
raw-text strategies and by the production extractor are always reconstructed
from the four captured groups through the fixed canonical template; the full
variant table strategy instead passes cell text through verbatim, so its
identifiers need not round-trip. -/
theorem C2_amended_theorem :
    (∀ (v : ListView) (r : Rec), r ∈ blockRecords v →
       ∃ c y t n, r.id = canonicalId c y t n) ∧
    (∀ (text : String) (r : Rec), r ∈ rawRecords text →
       ∃ c y t n, r.id = canonicalId c y t n) ∧
    (∀ (v : ListView) (i : String), i ∈ extract_judgments_from_list_prod v →
       ∃ c y t n, i = canonicalId c y t n) := by
  refine ⟨?_, ?_, ?_⟩
  · intro v r hr
    simp only [blockRecords] at hr
    obtain ⟨b, hb, hbr⟩ := List.mem_filterMap.1 hr
    revert hbr
    simp only [blockRecord]
    split
    · intro h; cases h
    · intro h
      injection h with h
      subst h
      exact ⟨_, _, _, _, rfl⟩
  · intro text r hr
    simp only [rawRecords] at hr
    obtain ⟨m, hm, hmr⟩ := List.mem_map.1 hr
    subst hmr
    exact ⟨_, _, _, _, rfl⟩
  · intro v i hi
    simp only [extract_judgments_from_list_prod] at hi
    have hi2 := mem_dedupeAux i _ _ hi
    obtain ⟨t0, ht0, htc⟩ := List.mem_filterMap.1 hi2
    revert htc
    simp only [prodCleanId, prodReconstruct]
    split
    · intro h; cases h
    · split
      · intro h
        injection h with h
        subst h
        exact ⟨_, _, _, _, rfl⟩
      · intro h; cases h

/-- Claim C2 witness: the amended theorem applied to the record the block
strategy extracts from the concrete page `pageTableEmpty`. -/
theorem C2_witness :
    recBlockLinked ∈ blockRecords pageTableEmpty ∧
    (∃ c y t n, recBlockLinked.id = canonicalId c y t n) :=
  ⟨by decide, C2_amended_theorem.1 pageTableEmpty recBlockLinked (by decide)⟩

/-! ## Claim C3 -/

/-- Claim C3 (confirmed): whenever any of the four fixed error phrases
occurs literally in the response body, the result-location resolver returns
none, regardless of any anchor, script redirect or query token also carried
by the parsed view of that body. -/
theorem C3_theorem (html : String) (v : SearchView)
    (h : errorMessages.any (fun error => pyIn error html) = true) :
    extract_query_result_url html v = none := by
  simp only [extract_query_result_url, if_pos h]

/-- Claim C3 witness: a body holding the system-busy phrase together with a
parsed view carrying a well-formed listing link still resolves to none. -/
theorem C3_witness :
    errorMessages.any (fun error => pyIn error "判決查詢 系統忙碌中 請稍後") = true ∧
    extract_query_result_url "判決查詢 系統忙碌中 請稍後" viewWithLink = none :=
  ⟨by decide, C3_theorem "判決查詢 系統忙碌中 請稍後" viewWithLink (by decide)⟩

/-! ## Claim C4 -/

/-- Claim C4 (confirmed): the court-code resolver equals the claimed
resolution order — exact table lookup, then first bidirectional substring
containment in preserved table order, then the summary-court heuristic,
otherwise unresolved — and (being a pure function, hence deterministic)
maps every exact table entry to its own code, so exact matches never fall
through to the substring logic. -/
theorem C4_theorem :
    (∀ court_name, get_court_code court_name = claimedCourtResolver court_name) ∧
    courtCodeMap.all (fun p => get_court_code p.1 == some p.2) = true := by
  constructor
  · intro n
    simp only [get_court_code, claimedCourtResolver,
      courtExactLookup_eq, courtSubstrLookup_eq, courtSummaryLookup_eq]
    cases (courtCodeMap.find? (fun p => p.1 == n)).map Prod.snd with
    | some c => rfl
    | none =>
      cases (courtCodeMap.find? (fun p => pyIn p.1 n || pyIn n p.1)).map Prod.snd with
      | some c => rfl
      | none => rfl
  · decide

/-! ## Claim C5 -/

/-- Claim C5 (confirmed): the date converter returns the Gregorian date
formed by adding 1911 to the ROC year with month and day zero-padded to two
digits, and fails exactly when the input does not split into three
dot-separated components each accepted by the Python integer parser; the
three documented examples behave as stated. -/
theorem C5_theorem :
    (∀ s : String, convert_roc_date_to_ad s = (rocDateComponents s).map
      (fun p => padIntFmt 4 (p.1 + 1911) ++ padIntFmt 2 p.2.1 ++ padIntFmt 2 p.2.2)) ∧
    convert_roc_date_to_ad "111.02.15" = some "20220215" ∧
    convert_roc_date_to_ad "100.1.1" = some "20110101" ∧
    convert_roc_date_to_ad "abc.1.1" = none := by
  refine ⟨?_, by decide, by decide, by decide⟩
  intro s
  by_cases hdot : pyIn "." s = true
  · simp only [convert_roc_date_to_ad, rocDateComponents, if_pos hdot]
    cases hs : splitOnChar '.' s.data with
    | nil => rfl
    | cons p0 l0 =>
      cases l0 with
      | nil => rfl
      | cons p1 l1 =>
        cases l1 with
        | nil => rfl
        | cons p2 l2 =>
          cases l2 with
          | nil =>
            rcases h0 : pyIntParse p0 with _ | y0 <;>
              rcases h1 : pyIntParse p1 with _ | y1 <;>
                rcases h2 : pyIntParse p2 with _ | y2 <;>
                  simp [h0, h1, h2]
          | cons p3 l3 => rfl
  · have hfalse : pyIn "." s = false := by
      rwa [Bool.not_eq_true] at hdot
    have hsub : sublistContains ['.'] s.data = false := hfalse
    simp only [convert_roc_date_to_ad, rocDateComponents, if_neg hdot,
      splitOnChar_no_sep '.' s.data hsub]
    rfl

/-! ## Claim C6 -/

/-- Claim C6 counterexample: the source URL carries the token `a%2Cb` byte
for byte, but the derived candidate embeds its URL-decoded form `a,b`; the
returned candidate does not contain the original byte sequence. -/
theorem C6_counterexample :
    rawIdToken jDirect.url = some "a%2Cb" ∧
    generate_plain_text_url_for_judgment httpAllOk jDirect =
      some (reformatUrl "a,b" "1") ∧
    pyIn "id=a%2Cb" (reformatUrl "a,b" "1") = false :=
  ⟨by decide, by decide, by decide⟩

/-- Claim C6 (amended): in the direct-rewrite strategy, each derived
candidate URL embeds the identifier token after URL decoding (the value
`parse_qs` produces, inserted without re-encoding) and varies only the
render flag across the probes, flag 1 then flag 0. -/
theorem C6_amended_theorem (http : Http) (u tok : String)
    (h : pyParseQsFirst "id" (pyUrlQuery u) = some tok) :
    directRewrite http u =
      (if isValidProbe http (reformatUrl tok "1") then some (reformatUrl tok "1")
       else if isValidProbe http (reformatUrl tok "0") then some (reformatUrl tok "0")
       else none) := by
  simp only [directRewrite, h, directRewriteLoop]

/-- Claim C6 witness: the amended theorem applied to the concrete source URL
of `jDirect`, whose decoded identifier token is `a,b`. -/
theorem C6_witness :
    pyParseQsFirst "id" (pyUrlQuery jDirect.url) = some "a,b" ∧
    directRewrite httpAllFail jDirect.url =
      (if isValidProbe httpAllFail (reformatUrl "a,b" "1") then
        some (reformatUrl "a,b" "1")
       else if isValidProbe httpAllFail (reformatUrl "a,b" "0") then
        some (reformatUrl "a,b" "0")
       else none) :=
  ⟨by decide, C6_amended_theorem httpAllFail jDirect.url "a,b" (by decide)⟩

/-! ## Claim C7 -/

/-- Claim C7 counterexample: under an oracle validating every probe, the
record with an unparseable identifier (whose derivation fails) is absent
from the enrichment output, not retained without content, while the
following record of the batch is still processed. -/
theorem C7_counterexample :
    generate_plain_text_url_for_judgment httpAllOk jUnparsable = none ∧
    processJudgments httpAllOk [jUnparsable, jSynth] = [recEnriched] ∧
    recEnriched.id = jSynth.id ∧ jUnparsable.id ≠ jSynth.id :=
  ⟨by decide, by decide, by decide, by decide⟩

/-- Claim C7 (amended): in the full variant, a record whose derivation fails
is omitted from the search output — the enrichment loop keeps exactly the
records whose derivation succeeds, enriched with URL and content — and the
remaining records of the batch are still processed. -/
theorem C7_amended_theorem (http : Http) (judgments : List Rec) :
    processJudgments http judgments = judgments.filterMap (fun j =>
      (generate_plain_text_url_for_judgment http j).map (fun u =>
        { j with plain_text_url := some u,
                 content := some (fetch_judgment_content http u) })) := by
  induction judgments with
  | nil => rfl
  | cons j rest ih =>
    cases h : generate_plain_text_url_for_judgment http j <;>
      simp [processJudgments, h, ih]

/-! ## Claim C8 -/

/-- Claim C8 counterexample: on a page whose result table matches but yields
no records while a block element would yield one, the claimed strategy
cascade returns the block record (with its link resolved), but the code
skips the block strategy and falls through to the raw-text strategy, whose
record carries an empty URL. -/
theorem C8_counterexample :
    claimedExtractTest pageTableEmpty = [recBlockLinked] ∧
    extract_judgments_from_list_test pageTableEmpty =
      [{ recBlockLinked with url := "" }] ∧
    claimedExtractTest pageTableEmpty ≠ extract_judgments_from_list_test pageTableEmpty :=
  ⟨by decide, by decide, by decide⟩

/-- Claim C8 (amended): the extractor applies the table strategy whenever a
result table is located and otherwise the block strategy, and appends the
raw-text strategy exactly when the chosen strategy yielded nothing; in
particular a matched table that yields no records falls through directly to
the raw-text strategy, skipping the block strategy. -/
theorem C8_amended_theorem (v : ListView) :
    (∀ t, findResultTable v.tables = some t →
       extract_judgments_from_list_test v =
         (if (tableRecords t).isEmpty then
            tableRecords t ++ rawRecords v.fullText
          else tableRecords t)) ∧
    (findResultTable v.tables = none →
       extract_judgments_from_list_test v =
         (if (blockRecords v).isEmpty then
            blockRecords v ++ rawRecords v.fullText
          else blockRecords v)) := by
  constructor
  · intro t ht
    simp only [extract_judgments_from_list_test, ht]
  · intro hn
    simp only [extract_judgments_from_list_test, hn]

/-- Claim C8 witness: the amended theorem applied to the concrete page with
a matching-but-empty result table. -/
theorem C8_witness :
    findResultTable pageTableEmpty.tables = some tableEmptyYield ∧
    extract_judgments_from_list_test pageTableEmpty =
      (if (tableRecords tableEmptyYield).isEmpty then
        tableRecords tableEmptyYield ++ rawRecords pageTableEmpty.fullText
       else tableRecords tableEmptyYield) :=
  ⟨by decide, (C8_amended_theorem pageTableEmpty).1 tableEmptyYield (by decide)⟩

/-! ## Claim C9 -/

/-- Claim C9 counterexample: a transport error during a content fetch is
converted to a non-empty failure-message string, not to an empty or null
content. -/
theorem C9_counterexample :
    fetch_judgment_content httpDown "u" = "獲取內容失敗: boom" ∧
    "獲取內容失敗: boom" ≠ "" :=
  ⟨by decide, by decide⟩

/-- Claim C9 (amended): transport errors are caught at the operation
boundary and never crash the process; a search converts them to the empty
list (production variant), while a content fetch converts them to a
failure-message string carrying the exception text. -/
theorem C9_amended_theorem :
    (∀ (http : Http) (q e : String),
       http (directSearchUrl ++ "?akw=" ++ pyQuote q) = Except.error e →
       search_judgments_prod http q = []) ∧
    (∀ (http : Http) (url e : String), http url = Except.error e →
       fetch_judgment_content http url = "獲取內容失敗: " ++ e) := by
  constructor
  · intro http q e h
    simp only [search_judgments_prod, h]
  · intro http url e h
    simp only [fetch_judgment_content, h]

/-- Claim C9 witness: the amended theorem applied to the all-raising
oracle. -/
theorem C9_witness :
    httpDown (directSearchUrl ++ "?akw=" ++ pyQuote "tax") = Except.error "boom" ∧
    search_judgments_prod httpDown "tax" = [] ∧
    fetch_judgment_content httpDown "u" = "獲取內容失敗: " ++ "boom" :=
  ⟨rfl, C9_amended_theorem.1 httpDown "tax" "boom" rfl,
   C9_amended_theorem.2 httpDown "u" "boom" rfl⟩

/-! ## Claim C10 -/

/-- Claim C10 (confirmed): every record of a successful full variant search
output carries both a derived plain-text URL and a content string — the
enrichment loop only emits records with both fields populated. -/
theorem C10_theorem (http : Http) (q : String) (recs : List Rec) (r : Rec)
    (hs : search_judgments_test http q = some recs) (hr : r ∈ recs) :
    r.plain_text_url.isSome ∧ r.content.isSome := by
  simp only [search_judgments_test] at hs
  repeat' split at hs
  any_goals cases hs
  all_goals exact searchProceed_mem http _ recs r hs hr

/-- Claim C10 witness: the invariant applied to the record produced by a
full concrete pipeline run. -/
theorem C10_witness :
    search_judgments_test httpPipeline "x" = some [recEnriched] ∧
    (recEnriched.plain_text_url.isSome ∧ recEnriched.content.isSome) :=
  ⟨by decide, C10_theorem httpPipeline "x" [recEnriched] recEnriched
    (by decide) (by decide)⟩
